import Mathlib

/-!
Verification of the issue-detection and lifecycle-tracking core of the
`slack-digest` repository (`user_settings.py`, `app.py`).

Python strings are embedded as lists of characters (`Str`), Python dicts
that serve as record-shaped objects become structures, and the per-user
settings store becomes an association list that preserves insertion order,
matching the ordered semantics of Python dicts.  Wall-clock reads
(`datetime.now().isoformat()`) are passed in as explicit `now` parameters.
Python's `str.lower()` is embedded as ASCII case folding (`Char.toLower`),
which agrees with CPython on the ASCII keyword tables used throughout the
source.
-/

set_option maxRecDepth 100000

abbrev Str := List Char

/-- Embedding of Python `str.lower()` (ASCII case folding). -/
def toLowerStr (s : Str) : Str := s.map Char.toLower

/-- Embedding of the Python substring test `needle in hay`. -/
def containsSub (hay needle : Str) : Bool :=
  needle.isPrefixOf hay ||
    match hay with
    | [] => false
    | _ :: t => containsSub t needle

/-! ## `extract_issue_priority` (user_settings.py:422-433) -/

/-- The critical-family word list from `extract_issue_priority`. -/
def critical_words : List Str :=
  ["critical".toList, "urgent".toList, "emergency".toList, "blocker".toList,
   "show-stopper".toList, "showstopper".toList]

/-- The high-family word list from `extract_issue_priority`. -/
def high_words : List Str :=
  ["high".toList, "important".toList, "asap".toList, "priority".toList]

/-- The low-family word list from `extract_issue_priority`. -/
def low_words : List Str :=
  ["low".toList, "minor".toList, "cosmetic".toList, "nice to have".toList]

/-- Embedding of `extract_issue_priority` (user_settings.py:422-433). -/
def extract_issue_priority (text : Str) : Str :=
  let text_lower := toLowerStr text
  if critical_words.any (fun w => containsSub text_lower w) then "critical".toList
  else if high_words.any (fun w => containsSub text_lower w) then "high".toList
  else if low_words.any (fun w => containsSub text_lower w) then "low".toList
  else "medium".toList

/-! ## `detect_issue_keywords` (user_settings.py:396-420) -/

/-- The `issue_patterns` table from `detect_issue_keywords`, in source order
(Python dicts preserve insertion order). -/
def issue_patterns : List (Str × List Str) :=
  [("bug".toList, ["bug".toList, "bugs".toList, "buggy".toList, "defect".toList,
      "error".toList, "broken".toList]),
   ("failure".toList, ["failure".toList, "failed".toList, "failing".toList,
      "fails".toList, "crash".toList, "crashed".toList, "crashing".toList]),
   ("problem".toList, ["problem".toList, "problems".toList, "issue".toList,
      "issues".toList, "trouble".toList, "wrong".toList]),
   ("malfunction".toList, ["malfunction".toList, "not working".toList,
      "doesn".toList ++ [Char.ofNat 39] ++ "t work".toList, "stopped working".toList]),
   ("performance".toList, ["slow".toList, "performance".toList, "lag".toList,
      "timeout".toList, "bottleneck".toList]),
   ("critical".toList, ["critical".toList, "urgent".toList, "emergency".toList,
      "blocker".toList, "show-stopper".toList, "showstopper".toList]),
   ("regression".toList, ["regression".toList, "broke".toList,
      "used to work".toList, "was working".toList]),
   ("hardware".toList, ["hardware issue".toList, "pcb".toList,
      "component failure".toList, "short circuit".toList, "thermal".toList]),
   ("firmware".toList, ["firmware bug".toList, "software issue".toList,
      "code problem".toList, "logic error".toList])]

/-- Embedding of `detect_issue_keywords` (user_settings.py:396-420): collect,
in table order, every issue type one of whose keywords occurs in the
lower-cased text. -/
def detect_issue_keywords (text : Str) : List Str :=
  let text_lower := toLowerStr text
  (issue_patterns.filter (fun p => p.2.any (fun k => containsSub text_lower k))).map Prod.fst

/-! ## `generate_issue_title` (user_settings.py:435-460) -/

/-- The whitespace class of Python `str.split()` / `str.strip()` / `\S`
(ASCII fragment). -/
def pyIsSpace (c : Char) : Bool :=
  c = ' ' || c = '\t' || c = '\n' || c = '\x0b' || c = '\x0c' || c = '\r'

/-- After `<` and a marker from `[@#!]`, consume at least one non-`>`
character and then a `>`; return the remaining suffix on success.  This is
the `[^>]+>` tail of the pattern `<[@#!][^>]+>`. -/
def closeAngle : Str → Option Str
  | [] => none
  | '>' :: _ => none
  | _ :: rest =>
    let rec scan : Str → Option Str
      | [] => none
      | '>' :: r => some r
      | _ :: r => scan r
    scan rest

/-- Embedding of `re.sub(r'<[@#!][^>]+>', '', text)`: delete every
non-overlapping match, scanning left to right.  The `fuel` argument (always
called with the length of the string) only makes the recursion structural;
every step consumes at least one character. -/
def stripMentionsF : Nat → Str → Str
  | 0, s => s
  | _ + 1, [] => []
  | fuel + 1, '<' :: c :: rest =>
    if c = '@' || c = '#' || c = '!' then
      match closeAngle rest with
      | some rem => stripMentionsF fuel rem
      | none => '<' :: stripMentionsF fuel (c :: rest)
    else '<' :: stripMentionsF fuel (c :: rest)
  | fuel + 1, ch :: rest => ch :: stripMentionsF fuel rest

def stripMentions (s : Str) : Str := stripMentionsF s.length s

/-- Try to match `http[s]?://\S+` at the head of `s`; on success return the
suffix after the (greedy) match. -/
def matchUrl (s : Str) : Option Str :=
  let after : Option Str :=
    if "https://".toList.isPrefixOf s then some (s.drop 8)
    else if "http://".toList.isPrefixOf s then some (s.drop 7)
    else none
  match after with
  | none => none
  | some rest =>
    match rest with
    | [] => none
    | c :: _ => if pyIsSpace c then none else some (rest.dropWhile (fun c => !pyIsSpace c))

/-- Embedding of `re.sub(r'http[s]?://\S+', '', cleaned)`, same fuel scheme
as `stripMentionsF`. -/
def stripUrlsF : Nat → Str → Str
  | 0, s => s
  | _ + 1, [] => []
  | fuel + 1, ch :: rest =>
    match matchUrl (ch :: rest) with
    | some rem => stripUrlsF fuel rem
    | none => ch :: stripUrlsF fuel rest

def stripUrls (s : Str) : Str := stripUrlsF s.length s

/-- Embedding of Python `str.split()` with no separator: split on runs of
whitespace, discarding empty fragments. -/
def splitWs (s : Str) : List Str :=
  (s.foldr
    (fun c acc =>
      if pyIsSpace c then [] :: acc
      else match acc with
        | [] => [[c]]
        | w :: ws => (c :: w) :: ws)
    []).filter (fun w => !w.isEmpty)

/-- The `skip_words` stop-word set of `generate_issue_title`. -/
def skip_words : List Str :=
  ["the".toList, "a".toList, "an".toList, "is".toList, "was".toList,
   "are".toList, "were".toList, "i".toList, "we".toList, "you".toList,
   "they".toList, "it".toList, "this".toList, "that".toList]

/-- Python slice `s[:k]` for an `int` bound `k`: a negative bound counts
from the end and clips at zero. -/
def pySlice (s : Str) (k : Int) : Str :=
  if 0 ≤ k then s.take k.toNat else s.take (s.length - (-k).toNat)

/-- Embedding of Python `str.strip()`. -/
def pyStrip (s : Str) : Str :=
  ((s.dropWhile pyIsSpace).reverse.dropWhile pyIsSpace).reverse

/-- Embedding of `generate_issue_title` (user_settings.py:435-460).  The
`max_length` parameter is a Python `int`, hence `Int` here. -/
def generate_issue_title (text : Str) (max_length : Int) : Str :=
  let cleaned := stripUrls (stripMentions text)
  let words := splitWs cleaned
  let filtered_words :=
    words.filter (fun w => !skip_words.contains (toLowerStr w) && w.length > 2)
  let title := List.intercalate [' '] (filtered_words.take 12)
  let title :=
    if (title.length : Int) > max_length then
      pySlice title (max_length - 3) ++ "...".toList
    else title
  pyStrip title

/-! ## `_generate_issue_id` (user_settings.py:146-149)

The source computes `hashlib.md5(content.encode()).hexdigest()[:8]`.  The
MD5 digest (RFC 1321) and the UTF-8 encoding of `str.encode()` are embedded
below over `Nat` byte lists, with 32-bit wrap-around written as explicit
`% 4294967296`. -/

/-- 2^32, the MD5 word modulus. -/
def m32 : Nat := 4294967296

/-- Left-rotation of a 32-bit word (valid for `x < m32`, `s ≤ 32`). -/
def rotl32 (x s : Nat) : Nat := (x * 2 ^ s) % m32 + x / 2 ^ (32 - s)

/-- 32-bit complement. -/
def not32 (x : Nat) : Nat := x ^^^ 4294967295

/-- The MD5 sine-derived constant table `K`. -/
def md5K : List Nat :=
  [3614090360, 3905402710, 606105819, 3250441966, 4118548399, 1200080426,
   2821735955, 4249261313, 1770035416, 2336552879, 4294925233, 2304563134,
   1804603682, 4254626195, 2792965006, 1236535329, 4129170786, 3225465664,
   643717713, 3921069994, 3593408605, 38016083, 3634488961, 3889429448,
   568446438, 3275163606, 4107603335, 1163531501, 2850285829, 4243563512,
   1735328473, 2368359562, 4294588738, 2272392833, 1839030562, 4259657740,
   2763975236, 1272893353, 4139469664, 3200236656, 681279174, 3936430074,
   3572445317, 76029189, 3654602809, 3873151461, 530742520, 3299628645,
   4096336452, 1126891415, 2878612391, 4237533241, 1700485571, 2399980690,
   4293915773, 2240044497, 1873313359, 4264355552, 2734768916, 1309151649,
   4149444226, 3174756917, 718787259, 3951481745]

/-- The MD5 per-round shift table `s`. -/
def md5S : List Nat :=
  [7, 12, 17, 22, 7, 12, 17, 22, 7, 12, 17, 22, 7, 12, 17, 22,
   5, 9, 14, 20, 5, 9, 14, 20, 5, 9, 14, 20, 5, 9, 14, 20,
   4, 11, 16, 23, 4, 11, 16, 23, 4, 11, 16, 23, 4, 11, 16, 23,
   6, 10, 15, 21, 6, 10, 15, 21, 6, 10, 15, 21, 6, 10, 15, 21]

/-- One of the 64 MD5 operations, applied to state `(a, b, c, d)`. -/
def md5Op (wds : List Nat) (st : Nat × Nat × Nat × Nat) (i : Nat) :
    Nat × Nat × Nat × Nat :=
  let (a, b, c, d) := st
  let fg : Nat × Nat :=
    if i < 16 then ((b &&& c) ||| (not32 b &&& d), i)
    else if i < 32 then ((d &&& b) ||| (not32 d &&& c), (5 * i + 1) % 16)
    else if i < 48 then (b ^^^ c ^^^ d, (3 * i + 5) % 16)
    else (c ^^^ (b ||| not32 d), (7 * i) % 16)
  let f := (fg.1 + a + md5K.getD i 0 + wds.getD fg.2 0) % m32
  (d, (b + rotl32 f (md5S.getD i 0)) % m32, b, c)

/-- Decode a 64-byte chunk into 16 little-endian 32-bit words. -/
def md5Words : List Nat → List Nat
  | b0 :: b1 :: b2 :: b3 :: rest =>
    (b0 + 256 * b1 + 65536 * b2 + 16777216 * b3) :: md5Words rest
  | _ => []

/-- Process one 64-byte chunk. -/
def md5Chunk (st : Nat × Nat × Nat × Nat) (chunk : List Nat) :
    Nat × Nat × Nat × Nat :=
  let wds := md5Words chunk
  let (a, b, c, d) := (List.range 64).foldl (md5Op wds) st
  ((st.1 + a) % m32, (st.2.1 + b) % m32, (st.2.2.1 + c) % m32, (st.2.2.2 + d) % m32)

/-- Process the padded message 64 bytes at a time.  `fuel` is the number of
chunks (`length / 64` for the padded message). -/
def md5Blocks : Nat → (Nat × Nat × Nat × Nat) → List Nat → Nat × Nat × Nat × Nat
  | 0, st, _ => st
  | _ + 1, st, [] => st
  | fuel + 1, st, l => md5Blocks fuel (md5Chunk st (l.take 64)) (l.drop 64)

/-- MD5 padding: `0x80`, zeros to 56 mod 64, then the 64-bit little-endian
bit length. -/
def md5Pad (msg : List Nat) : List Nat :=
  let len := msg.length
  let zeros := (119 - len % 64) % 64
  let bits := (8 * len) % 2 ^ 64
  msg ++ 128 :: List.replicate zeros 0 ++
    [bits % 256, bits / 256 % 256, bits / 65536 % 256, bits / 16777216 % 256,
     bits / 2 ^ 32 % 256, bits / 2 ^ 40 % 256, bits / 2 ^ 48 % 256, bits / 2 ^ 56 % 256]

/-- Serialize a 32-bit word into 4 little-endian bytes. -/
def leBytes (w : Nat) : List Nat :=
  [w % 256, w / 256 % 256, w / 65536 % 256, w / 16777216 % 256]

/-- The 16-byte MD5 digest of a byte string. -/
def md5 (msg : List Nat) : List Nat :=
  let padded := md5Pad msg
  let st := md5Blocks (padded.length / 64)
    (1732584193, 4023233417, 2562383102, 271733878) padded
  leBytes st.1 ++ leBytes st.2.1 ++ leBytes st.2.2.1 ++ leBytes st.2.2.2

/-- The lower-case hexadecimal digits. -/
def hexDigits : List Char := "0123456789abcdef".toList

/-- One hex digit. -/
def hexDigit (n : Nat) : Char := hexDigits.getD n '0'

/-- `hexdigest()`: two lower-case hex digits per byte. -/
def hexdigest (bytes : List Nat) : Str :=
  bytes.flatMap (fun b => [hexDigit (b / 16), hexDigit (b % 16)])

/-- UTF-8 encoding of one code point (Python `str.encode()`). -/
def utf8Char (c : Char) : List Nat :=
  let n := c.toNat
  if n < 128 then [n]
  else if n < 2048 then [192 + n / 64, 128 + n % 64]
  else if n < 65536 then [224 + n / 4096, 128 + n / 64 % 64, 128 + n % 64]
  else [240 + n / 262144, 128 + n / 4096 % 64, 128 + n / 64 % 64, 128 + n % 64]

/-- UTF-8 encoding of a string (Python `str.encode()`). -/
def utf8 (s : Str) : List Nat := s.flatMap utf8Char

/-- Embedding of `_generate_issue_id` (user_settings.py:146-149):
`hashlib.md5(f"{message_text[:100]}{channel}{timestamp}".encode()).hexdigest()[:8]`. -/
def generate_issue_id (message_text channel timestamp : Str) : Str :=
  let content := message_text.take 100 ++ channel ++ timestamp
  (hexdigest (md5 (utf8 content))).take 8

/-! ## The issue detector (app.py:167-210) -/

/-- A message dict as read by `detect_and_track_issues`: the keys the code
and the spec mention, each `Option` to model key absence (`dict.get`
defaults).  The spec's Message shape is `{text, user, channel, timestamp}`;
the code additionally reads a `ts` key. -/
structure Message where
  text : Option Str
  user : Option Str
  channel : Option Str
  timestamp : Option Str
  ts : Option Str
deriving Repr, DecidableEq

/-- The candidate-issue dict packaged by `detect_and_track_issues`. -/
structure Candidate where
  title : Str
  original_text : Str
  channel : Str
  reporter : Str
  timestamp : Str
  message_ts : Str
  types : List Str
  priority : Str
  tags : List Str
deriving Repr, DecidableEq

/-- Embedding of `detect_and_track_issues` (app.py:167-210).  The loop
appends a candidate for each message whose detected issue-type list is
non-empty; the critical-path `print` is I/O-free here and the auto-create
branch is commented out in the source. -/
def detect_and_track_issues : List Message → List Candidate
  | [] => []
  | message :: rest =>
    let message_text := message.text.getD []
    let issue_types := detect_issue_keywords message_text
    if issue_types.isEmpty then detect_and_track_issues rest
    else
      { title := generate_issue_title message_text 80
        original_text := message_text
        channel := message.channel.getD []
        reporter := message.user.getD []
        timestamp := message.ts.getD []
        message_ts := message.ts.getD []
        types := issue_types
        priority := extract_issue_priority message_text
        tags := issue_types } :: detect_and_track_issues rest

/-! ## The per-user record store (user_settings.py) -/

/-- One `status_history` entry.  The seeding entry written by `create_issue`
has no `previous_status` key, the entries appended by `update_issue_status`
do; hence the `Option`. -/
structure HistEntry where
  status : Str
  timestamp : Str
  user : Str
  previous_status : Option Str
deriving Repr, DecidableEq

/-- A normalized related-message record (`add_related_message`). -/
structure RelatedMessage where
  text : Str
  user : Str
  channel : Str
  timestamp : Str
  message_ts : Str
  added_at : Str
deriving Repr, DecidableEq

/-- A stored issue record, with the fields written by `create_issue`
(user_settings.py:165-187). -/
structure Issue where
  id : Str
  title : Str
  description : Str
  original_text : Str
  channel : Str
  reporter : Str
  timestamp : Str
  message_ts : Str
  status : Str
  priority : Str
  tags : List Str
  related_messages : List RelatedMessage
  status_history : List HistEntry
  created_at : Str
  updated_at : Str
deriving Repr, DecidableEq

/-- A project record (`create_project`, user_settings.py:96-101). -/
structure Project where
  channels : List Str
  keywords : List Str
  created_at : Str
  active : Bool
deriving Repr, DecidableEq

/-- The per-user dict: `projects` and `issues` keys, each possibly absent
(`Option`), each an insertion-ordered mapping embedded as an association
list.  The scalar preference keys (`custom_prompt`, `keywords`,
`default_hours`) are never touched by the issue/project operations and are
omitted. -/
structure UserData where
  projects : Option (List (Str × Project))
  issues : Option (List (Str × Issue))
deriving Repr, DecidableEq

/-- The whole settings store: user id → per-user dict, insertion-ordered. -/
abbrev Settings := List (Str × UserData)

/-- Python dict lookup `d.get(k)` on an insertion-ordered mapping. -/
def alGet : List (Str × α) → Str → Option α
  | [], _ => none
  | (k, v) :: t, key => if k = key then some v else alGet t key

/-- Python dict assignment `d[k] = v`: replace in place if the key exists
(keeping its position), otherwise append. -/
def alSet : List (Str × α) → Str → α → List (Str × α)
  | [], key, v => [(key, v)]
  | (k, w) :: t, key, v =>
    if k = key then (key, v) :: t else (k, w) :: alSet t key v

/-- The issue-data dict passed to `create_issue`: every key is read with
`dict.get` and a default, so every field is `Option`. -/
structure IssueData where
  title : Option Str
  description : Option Str
  original_text : Option Str
  channel : Option Str
  reporter : Option Str
  timestamp : Option Str
  message_ts : Option Str
  status : Option Str
  priority : Option Str
  tags : Option (List Str)
deriving Repr, DecidableEq

/-- The dict a detector candidate passes into `create_issue`: it carries no
`description` and no `status` key (app.py:186-196). -/
def candidateData (c : Candidate) : IssueData :=
  { title := some c.title
    description := none
    original_text := some c.original_text
    channel := some c.channel
    reporter := some c.reporter
    timestamp := some c.timestamp
    message_ts := some c.message_ts
    status := none
    priority := some c.priority
    tags := some c.tags }

/-- Embedding of `create_issue` (user_settings.py:151-190).  The two
ensure-key steps of the source (`settings[user_id] = {}` and
`...["issues"] = {}` when absent) are collapsed with the final assignment,
which overwrites the same keys; the net effect on the store is identical.
The three `datetime.now().isoformat()` reads are modelled by the single
explicit `now` argument.  Returns the updated store and the issue id. -/
def create_issue (s : Settings) (user_id : Str) (issue_data : IssueData)
    (now : Str) : Settings × Str :=
  let ud := (alGet s user_id).getD ⟨none, none⟩
  let issues := ud.issues.getD []
  let issue_id := generate_issue_id (issue_data.original_text.getD [])
    (issue_data.channel.getD []) (issue_data.timestamp.getD [])
  let issue : Issue :=
    { id := issue_id
      title := issue_data.title.getD []
      description := issue_data.description.getD []
      original_text := issue_data.original_text.getD []
      channel := issue_data.channel.getD []
      reporter := issue_data.reporter.getD []
      timestamp := issue_data.timestamp.getD []
      message_ts := issue_data.message_ts.getD []
      status := issue_data.status.getD "open".toList
      priority := issue_data.priority.getD "medium".toList
      tags := issue_data.tags.getD []
      related_messages := []
      status_history := [⟨"open".toList, now, user_id, none⟩]
      created_at := now
      updated_at := now }
  (alSet s user_id { ud with issues := some (alSet issues issue_id issue) }, issue_id)

/-- Embedding of `get_user_issues` (user_settings.py:192-199). -/
def get_user_issues (s : Settings) (user_id : Str) (status : Option Str) :
    List (Str × Issue) :=
  let issues := ((alGet s user_id).bind UserData.issues).getD []
  match status with
  | some st => issues.filter (fun p => p.2.status = st)
  | none => issues

/-- Embedding of `get_issue` (user_settings.py:201-204). -/
def get_issue (s : Settings) (user_id issue_id : Str) : Option Issue :=
  alGet (get_user_issues s user_id none) issue_id

/-- Embedding of `update_issue_status` (user_settings.py:206-226): guarded
by the same membership checks as the source, it records the previous
status, appends one history entry and bumps `updated_at`; absent user /
`issues` key / issue id all fall through to `(s, false)`. -/
def update_issue_status (s : Settings) (user_id issue_id new_status : Str)
    (updated_by : Option Str) (now : Str) : Settings × Bool :=
  match alGet s user_id with
  | none => (s, false)
  | some ud =>
    match ud.issues with
    | none => (s, false)
    | some issues =>
      match alGet issues issue_id with
      | none => (s, false)
      | some issue =>
        let old_status := issue.status
        let issue :=
          { issue with
            status := new_status
            updated_at := now
            status_history := issue.status_history ++
              [⟨new_status, now, updated_by.getD user_id, some old_status⟩] }
        (alSet s user_id { ud with issues := some (alSet issues issue_id issue) }, true)

/-- Embedding of `add_related_message` (user_settings.py:228-248). -/
def add_related_message (s : Settings) (user_id issue_id : Str)
    (message_data : Message) (now : Str) : Settings × Bool :=
  match alGet s user_id with
  | none => (s, false)
  | some ud =>
    match ud.issues with
    | none => (s, false)
    | some issues =>
      match alGet issues issue_id with
      | none => (s, false)
      | some issue =>
        let related : RelatedMessage :=
          { text := message_data.text.getD []
            user := message_data.user.getD []
            channel := message_data.channel.getD []
            timestamp := message_data.timestamp.getD []
            message_ts := message_data.ts.getD []
            added_at := now }
        let issue :=
          { issue with
            related_messages := issue.related_messages ++ [related]
            updated_at := now }
        (alSet s user_id { ud with issues := some (alSet issues issue_id issue) }, true)

/-- Embedding of `get_user_projects` (user_settings.py:104-107). -/
def get_user_projects (s : Settings) (user_id : Str) : List (Str × Project) :=
  ((alGet s user_id).bind UserData.projects).getD []

/-- Embedding of `get_project` (user_settings.py:109-112). -/
def get_project (s : Settings) (user_id project_name : Str) : Option Project :=
  alGet (get_user_projects s user_id) project_name

/-- Embedding of `toggle_project_status` (user_settings.py:135-143): flips
`active` and returns the new value, or returns `none` (Python `None`) when
the user, the `projects` key or the project is absent. -/
def toggle_project_status (s : Settings) (user_id project_name : Str) :
    Settings × Option Bool :=
  match alGet s user_id with
  | none => (s, none)
  | some ud =>
    match ud.projects with
    | none => (s, none)
    | some projects =>
      match alGet projects project_name with
      | none => (s, none)
      | some project =>
        let current_status := project.active
        let projects := alSet projects project_name { project with active := !current_status }
        (alSet s user_id { ud with projects := some projects }, some (!current_status))

/-- The searchable text of an issue:
`f"{title} {description} {original_text}".lower()`. -/
def searchableText (i : Issue) : Str :=
  toLowerStr (i.title ++ ' ' :: i.description ++ ' ' :: i.original_text)

/-- Embedding of `search_issues` (user_settings.py:250-264): filter by
case-insensitive substring, then `results.sort(key=..., reverse=True)` —
a stable descending sort by `updated_at`, embedded as `List.mergeSort`
(also stable) with the reversed comparison. -/
def search_issues (s : Settings) (user_id query : Str) : List Issue :=
  let query_lower := toLowerStr query
  let results := ((get_user_issues s user_id none).map Prod.snd).filter
    (fun issue => containsSub (searchableText issue) query_lower)
  results.mergeSort (fun a b => decide (b.updated_at ≤ a.updated_at))

/-- The statistics dict (user_settings.py:270-278), with the `by_priority`
sub-dict inlined as four fields. -/
structure Stats where
  total : Nat
  open_ : Nat
  investigating : Nat
  resolved : Nat
  closed : Nat
  low : Nat
  medium : Nat
  high : Nat
  critical : Nat
  recent_activity : Nat
deriving Repr, DecidableEq

/-- The `if status in stats: stats[status] += 1` step.  Besides the four
status counters, the literal membership test also lets a status named
`total` or `recent_activity` bump those keys; a status named `by_priority`
would hit the sub-dict and raise a `TypeError` in Python — unreachable for
the `Status` vocabulary, modelled as a no-op. -/
def bumpStatus (st : Stats) (status : Str) : Stats :=
  if status = "total".toList then { st with total := st.total + 1 }
  else if status = "open".toList then { st with open_ := st.open_ + 1 }
  else if status = "investigating".toList then { st with investigating := st.investigating + 1 }
  else if status = "resolved".toList then { st with resolved := st.resolved + 1 }
  else if status = "closed".toList then { st with closed := st.closed + 1 }
  else if status = "recent_activity".toList then { st with recent_activity := st.recent_activity + 1 }
  else st

/-- The `if priority in stats["by_priority"]: ... += 1` step. -/
def bumpPriority (st : Stats) (priority : Str) : Stats :=
  if priority = "low".toList then { st with low := st.low + 1 }
  else if priority = "medium".toList then { st with medium := st.medium + 1 }
  else if priority = "high".toList then { st with high := st.high + 1 }
  else if priority = "critical".toList then { st with critical := st.critical + 1 }
  else st

/-- Embedding of `get_issue_statistics` (user_settings.py:266-304).  The
recent-activity test (parse `updated_at`, swallow failures, compare with
the wall clock 24h ago) depends on `datetime.now()` and is passed in as the
predicate `recent`; it touches only the `recent_activity` counter.
`statStep` is its loop body for one issue: the status bump, the priority
bump and the recent-activity bump, in source order. -/
def statStep (recent : Issue → Bool) (st : Stats) (p : Str × Issue) : Stats :=
  let st := bumpStatus st p.2.status
  let st := bumpPriority st p.2.priority
  if recent p.2 then { st with recent_activity := st.recent_activity + 1 } else st

def get_issue_statistics (s : Settings) (user_id : Str)
    (recent : Issue → Bool) : Stats :=
  let issues := get_user_issues s user_id none
  let init : Stats := ⟨issues.length, 0, 0, 0, 0, 0, 0, 0, 0, 0⟩
  issues.foldl (statStep recent) init

/-! ## Theorems -/

/-- Bool-valued occurrence check shared by the priority/keyword theorems. -/
lemma any_containsSub_true {tl : Str} {ws : List Str}
    (h : ∃ w ∈ ws, containsSub tl w = true) :
    ws.any (fun w => containsSub tl w) = true :=
  List.any_eq_true.mpr h

lemma any_containsSub_false {tl : Str} {ws : List Str}
    (h : ∀ w ∈ ws, containsSub tl w = false) :
    ws.any (fun w => containsSub tl w) = false := by
  rw [List.any_eq_false]
  intro x hx
  simp [h x hx]

/-- C3: `extract_issue_priority` returns the first matching family, with
precedence critical > high > low > medium, and the three spec examples
evaluate as stated. -/
theorem C3_priority_first_match_wins :
    (∀ text : Str,
      ((∃ w ∈ critical_words, containsSub (toLowerStr text) w = true) →
        extract_issue_priority text = "critical".toList) ∧
      ((∀ w ∈ critical_words, containsSub (toLowerStr text) w = false) →
        (∃ w ∈ high_words, containsSub (toLowerStr text) w = true) →
        extract_issue_priority text = "high".toList) ∧
      ((∀ w ∈ critical_words, containsSub (toLowerStr text) w = false) →
        (∀ w ∈ high_words, containsSub (toLowerStr text) w = false) →
        (∃ w ∈ low_words, containsSub (toLowerStr text) w = true) →
        extract_issue_priority text = "low".toList) ∧
      ((∀ w ∈ critical_words, containsSub (toLowerStr text) w = false) →
        (∀ w ∈ high_words, containsSub (toLowerStr text) w = false) →
        (∀ w ∈ low_words, containsSub (toLowerStr text) w = false) →
        extract_issue_priority text = "medium".toList)) ∧
    extract_issue_priority "Critical system failure".toList = "critical".toList ∧
    extract_issue_priority "Minor cosmetic problem".toList = "low".toList ∧
    extract_issue_priority "Regular bug report".toList = "medium".toList := by
  refine ⟨fun text => ⟨fun h => ?_, fun h1 h2 => ?_, fun h1 h2 h3 => ?_,
    fun h1 h2 h3 => ?_⟩, by decide, by decide, by decide⟩
  · simp only [extract_issue_priority]
    rw [if_pos (any_containsSub_true h)]
  · simp only [extract_issue_priority]
    rw [if_neg (by simp [any_containsSub_false h1]),
      if_pos (any_containsSub_true h2)]
  · simp only [extract_issue_priority]
    rw [if_neg (by simp [any_containsSub_false h1]),
      if_neg (by simp [any_containsSub_false h2]),
      if_pos (any_containsSub_true h3)]
  · simp only [extract_issue_priority]
    rw [if_neg (by simp [any_containsSub_false h1]),
      if_neg (by simp [any_containsSub_false h2]),
      if_neg (by simp [any_containsSub_false h3])]

/-- Witness for C3 at a text containing both a critical-family and a
low-family word. -/
theorem C3_priority_first_match_wins_witness :
    (∃ w ∈ critical_words,
      containsSub (toLowerStr "Critical but minor detail".toList) w = true) ∧
    (∃ w ∈ low_words,
      containsSub (toLowerStr "Critical but minor detail".toList) w = true) ∧
    extract_issue_priority "Critical but minor detail".toList = "critical".toList :=
  ⟨by decide, by decide,
    (C3_priority_first_match_wins.1 "Critical but minor detail".toList).1 (by decide)⟩

/-- C10: priority signal words are matched as raw substrings without word
boundaries: any text whose lower-cased form contains a high-family
substring and no critical-family substring gets priority `high`, and in
particular `"The highway is closed"` (which contains `high` only inside
`highway`) yields `high`. -/
theorem C10_substring_no_word_boundary :
    (∀ text : Str,
      (∃ w ∈ high_words, containsSub (toLowerStr text) w = true) →
      (∀ w ∈ critical_words, containsSub (toLowerStr text) w = false) →
      extract_issue_priority text = "high".toList) ∧
    extract_issue_priority "The highway is closed".toList = "high".toList := by
  refine ⟨fun text hh hc => ?_, by decide⟩
  simp only [extract_issue_priority]
  rw [if_neg (by simp [any_containsSub_false hc]),
    if_pos (any_containsSub_true hh)]

/-- Witness for C10 at the claim's example text. -/
theorem C10_substring_no_word_boundary_witness :
    (∃ w ∈ high_words,
      containsSub (toLowerStr "The highway is closed".toList) w = true) ∧
    extract_issue_priority "The highway is closed".toList = "high".toList :=
  ⟨by decide,
    C10_substring_no_word_boundary.1 "The highway is closed".toList
      (by decide) (by decide)⟩

/-- C4: `detect_issue_keywords` emits a tag iff one of that tag's patterns
is a substring of the lower-cased text (tags independent, union semantics);
the empty string yields the empty list, and the two spec examples hold. -/
theorem C4_classifier_union :
    (∀ (text tag : Str),
      tag ∈ detect_issue_keywords text ↔
        ∃ pats, (tag, pats) ∈ issue_patterns ∧
          ∃ k ∈ pats, containsSub (toLowerStr text) k = true) ∧
    detect_issue_keywords [] = [] ∧
    "bug".toList ∈
      detect_issue_keywords "The PCB has a bug in the power circuit".toList ∧
    "hardware".toList ∈
      detect_issue_keywords "The PCB has a bug in the power circuit".toList ∧
    detect_issue_keywords
      ("Let".toList ++ [Char.ofNat 39] ++ "s grab lunch today".toList) = [] := by
  refine ⟨fun text tag => ?_, by decide, by decide, by decide, by decide⟩
  simp only [detect_issue_keywords, List.mem_map, List.mem_filter,
    List.any_eq_true]
  constructor
  · rintro ⟨⟨t, pats⟩, ⟨hm, k, hk, hc⟩, rfl⟩
    exact ⟨pats, hm, k, hk, hc⟩
  · rintro ⟨pats, hm, k, hk, hc⟩
    exact ⟨(tag, pats), ⟨hm, k, hk, hc⟩, rfl⟩

lemma pyStrip_length_le (s : Str) : (pyStrip s).length ≤ s.length := by
  have h1 : ∀ (l : Str), (l.dropWhile pyIsSpace).length ≤ l.length :=
    fun l => (List.dropWhile_sublist _).length_le
  calc (pyStrip s).length
      = ((s.dropWhile pyIsSpace).reverse.dropWhile pyIsSpace).length := by
        simp [pyStrip]
    _ ≤ (s.dropWhile pyIsSpace).reverse.length := h1 _
    _ = (s.dropWhile pyIsSpace).length := by simp
    _ ≤ s.length := h1 _

/-- The final clip-and-strip step of `generate_issue_title` keeps at most
`max_length` characters whenever `max_length ≥ 3`. -/
lemma title_clip_bound (title : Str) (max_length : Int) (h : 3 ≤ max_length) :
    ((pyStrip (if (title.length : Int) > max_length then
      pySlice title (max_length - 3) ++ "...".toList else title)).length : Int)
      ≤ max_length := by
  split
  · have h1 : (pySlice title (max_length - 3)).length ≤ (max_length - 3).toNat := by
      rw [pySlice, if_pos (by omega : (0:Int) ≤ max_length - 3)]
      simp [List.length_take]
    have h2 := pyStrip_length_le (pySlice title (max_length - 3) ++ "...".toList)
    have h4 : ((max_length - 3).toNat : Int) = max_length - 3 :=
      Int.toNat_of_nonneg (by omega)
    have h5 : (pySlice title (max_length - 3) ++ "...".toList).length
        = (pySlice title (max_length - 3)).length + 3 := by
      simp [List.length_append]
    omega
  · rename_i hle
    have h2 := pyStrip_length_le title
    have h3 : (title.length : Int) ≤ max_length := by omega
    omega

/-- C5 counterexample: `len(generate_issue_title(T, L)) <= L` fails at
`T = "abcd"`, `L = 2`: Python's negative slice `title[:-1]` keeps three
characters and the appended ellipsis makes the result six characters. -/
theorem C5_counterexample :
    ¬ ((generate_issue_title "abcd".toList 2).length : Int) ≤ 2 := by decide

/-- C5 (amended): for every text and every `max_length ≥ 3` the generated
title has at most `max_length` characters; for `max_length < 3` the
`title[:max_length-3]` slice is negative and the bound can fail (see the
counterexample). -/
theorem C5_title_bound (text : Str) (max_length : Int) (h : 3 ≤ max_length) :
    ((generate_issue_title text max_length).length : Int) ≤ max_length := by
  simp only [generate_issue_title]
  exact title_clip_bound _ _ h

/-- Witness for C5 at the default length bound. -/
theorem C5_title_bound_witness :
    (3 : Int) ≤ 80 ∧
    ((generate_issue_title "The PCB has a bug in the power circuit".toList 80).length
      : Int) ≤ 80 :=
  ⟨by decide, C5_title_bound _ _ (by decide)⟩

lemma md5_length (msg : List Nat) : (md5 msg).length = 16 := by
  simp [md5, leBytes]

lemma md5_bytes_lt (msg : List Nat) : ∀ b ∈ md5 msg, b < 256 := by
  intro b hb
  have hle : ∀ (w : Nat), ∀ x ∈ leBytes w, x < 256 := by
    intro w x hx
    simp only [leBytes, List.mem_cons, List.not_mem_nil, or_false] at hx
    rcases hx with rfl | rfl | rfl | rfl <;> exact Nat.mod_lt _ (by norm_num)
  simp only [md5, List.mem_append] at hb
  rcases hb with ((hb | hb) | hb) | hb <;> exact hle _ _ hb

lemma hexDigit_mem : ∀ n : Nat, n < 16 → hexDigit n ∈ hexDigits := by decide

lemma hexdigest_length (bytes : List Nat) :
    (hexdigest bytes).length = 2 * bytes.length := by
  induction bytes with
  | nil => simp [hexdigest]
  | cons b t ih =>
    simp only [hexdigest, List.flatMap_cons] at ih ⊢
    simp [ih]
    omega

lemma hexdigest_mem {bytes : List Nat} (hb : ∀ b ∈ bytes, b < 256) :
    ∀ ch ∈ hexdigest bytes, ch ∈ hexDigits := by
  intro ch hch
  simp only [hexdigest, List.mem_flatMap] at hch
  obtain ⟨b, hmem, hch⟩ := hch
  have h256 := hb b hmem
  simp only [List.mem_cons, List.not_mem_nil, or_false] at hch
  rcases hch with rfl | rfl
  · exact hexDigit_mem _ (Nat.div_lt_iff_lt_mul (by norm_num) |>.mpr h256)
  · exact hexDigit_mem _ (Nat.mod_lt _ (by norm_num))

/-- C2: the issue fingerprint is an 8-character lower-case-hex string,
is a deterministic function of the inputs, and depends on the text only
through its first 100 characters: any two inputs agreeing on the
100-character text prefix, the channel and the timestamp receive the same
id. -/
theorem C2_fingerprint :
    ∀ t c ts : Str,
      (generate_issue_id t c ts).length = 8 ∧
      (∀ ch ∈ generate_issue_id t c ts, ch ∈ hexDigits) ∧
      (∀ t2 c2 ts2 : Str, t.take 100 = t2.take 100 → c = c2 → ts = ts2 →
        generate_issue_id t c ts = generate_issue_id t2 c2 ts2) := by
  intro t c ts
  refine ⟨?_, ?_, ?_⟩
  · simp [generate_issue_id, List.length_take, hexdigest_length, md5_length]
  · intro ch hch
    exact hexdigest_mem (md5_bytes_lt _) ch (List.mem_of_mem_take hch)
  · intro t2 c2 ts2 hpre hc hts
    simp only [generate_issue_id]
    rw [hpre, hc, hts]

/-- Witness for C2: two 105-character texts that differ only beyond the
100th character collide. -/
theorem C2_fingerprint_witness :
    (List.replicate 100 'a' ++ "11111".toList).take 100
      = (List.replicate 100 'a' ++ "22222".toList).take 100 ∧
    generate_issue_id (List.replicate 100 'a' ++ "11111".toList)
        "general".toList "123.45".toList
      = generate_issue_id (List.replicate 100 'a' ++ "22222".toList)
        "general".toList "123.45".toList :=
  ⟨by decide,
    (C2_fingerprint (List.replicate 100 'a' ++ "11111".toList)
      "general".toList "123.45".toList).2.2
      (List.replicate 100 'a' ++ "22222".toList) "general".toList "123.45".toList
      (by decide) rfl rfl⟩

/-- The candidate the spec's detector contract describes for a message,
with the one amendment the code forces: `timestamp` and `message_ts` are
read from the message's `ts` key (empty when absent), not from its
`timestamp` key. -/
def specCandidate (m : Message) : Candidate :=
  { title := generate_issue_title (m.text.getD []) 80
    original_text := m.text.getD []
    channel := m.channel.getD []
    reporter := m.user.getD []
    timestamp := m.ts.getD []
    message_ts := m.ts.getD []
    types := detect_issue_keywords (m.text.getD [])
    priority := extract_issue_priority (m.text.getD [])
    tags := detect_issue_keywords (m.text.getD []) }

/-- C6 counterexample: for a message of the spec's shape
`{text, user, channel, timestamp}` (no `ts` key), the emitted candidate's
`timestamp` is the empty string, not the message's `timestamp`. -/
theorem C6_counterexample :
    (detect_and_track_issues
        [⟨some "bug".toList, some "u1".toList, some "general".toList,
          some "123.45".toList, none⟩]).map Candidate.timestamp = [[]] ∧
    ([] : Str) ≠ "123.45".toList := by
  constructor
  · rfl
  · decide

/-- C6 (amended): the detector returns, in input order, exactly one
candidate per message whose classifier tag set is non-empty, with
`title`/`priority`/`types`/`tags`/`original_text`/`channel`/`reporter`
as the claim states; `timestamp` and `message_ts` are read from the
message's `ts` key (empty string when that key is absent, in particular
for messages of the spec's `{text, user, channel, timestamp}` shape),
and the transform performs no persistence. -/
theorem C6_detector :
    ∀ messages : List Message,
      detect_and_track_issues messages =
        (messages.filter
          (fun m => !(detect_issue_keywords (m.text.getD [])).isEmpty)).map
          specCandidate := by
  intro messages
  induction messages with
  | nil => rfl
  | cons m rest ih =>
    by_cases hm : (detect_issue_keywords (m.text.getD [])).isEmpty
    · simp [detect_and_track_issues, hm, ih]
    · simp only [detect_and_track_issues, hm, List.filter_cons]
      simp [hm, ih, specCandidate]

lemma alGet_alSet_self {α : Type} (l : List (Str × α)) (k : Str) (v : α) :
    alGet (alSet l k v) k = some v := by
  induction l with
  | nil => simp [alSet, alGet]
  | cons h t ih =>
    obtain ⟨k1, v1⟩ := h
    by_cases hk : k1 = k
    · simp [alSet, alGet, hk]
    · simp [alSet, alGet, hk, ih]

/-- C9: `update_issue_status` and `add_related_message` on an absent issue
id return `false` and leave the store untouched (no exception is possible:
both are total functions); `toggle_project_status` returns `none` — an
absent signal distinct from any boolean — for an absent project, and for a
present project flips `active` and returns the new boolean. -/
theorem C9_not_found :
    ∀ (s : Settings) (user_id issue_id new_status : Str) (updated_by : Option Str)
      (now : Str) (m : Message) (project_name : Str),
      (get_issue s user_id issue_id = none →
        update_issue_status s user_id issue_id new_status updated_by now = (s, false) ∧
        add_related_message s user_id issue_id m now = (s, false)) ∧
      (get_project s user_id project_name = none →
        toggle_project_status s user_id project_name = (s, none)) ∧
      (∀ p, get_project s user_id project_name = some p →
        (toggle_project_status s user_id project_name).2 = some (!p.active) ∧
        get_project (toggle_project_status s user_id project_name).1 user_id
          project_name = some { p with active := !p.active }) := by
  intro s user_id issue_id new_status updated_by now m project_name
  refine ⟨fun hnone => ?_, fun hnone => ?_, fun p hp => ?_⟩
  · rw [get_issue, get_user_issues] at hnone
    cases hu : alGet s user_id with
    | none => simp [update_issue_status, add_related_message, hu]
    | some ud =>
      cases hi : ud.issues with
      | none => simp [update_issue_status, add_related_message, hu, hi]
      | some issues =>
        rw [hu] at hnone
        simp only [Option.some_bind, hi, Option.getD_some] at hnone
        simp [update_issue_status, add_related_message, hu, hi, hnone]
  · rw [get_project, get_user_projects] at hnone
    cases hu : alGet s user_id with
    | none => simp [toggle_project_status, hu]
    | some ud =>
      cases hpr : ud.projects with
      | none => simp [toggle_project_status, hu, hpr]
      | some projects =>
        rw [hu] at hnone
        simp only [Option.some_bind, hpr, Option.getD_some] at hnone
        simp [toggle_project_status, hu, hpr, hnone]
  · rw [get_project, get_user_projects] at hp
    cases hu : alGet s user_id with
    | none => simp [hu, alGet] at hp
    | some ud =>
      cases hpr : ud.projects with
      | none => rw [hu] at hp; simp [Option.some_bind, hpr, alGet] at hp
      | some projects =>
        rw [hu] at hp
        simp only [Option.some_bind, hpr, Option.getD_some] at hp
        constructor
        · simp [toggle_project_status, hu, hpr, hp]
        · simp only [toggle_project_status, hu, hpr, hp]
          rw [get_project, get_user_projects, alGet_alSet_self]
          simp [alGet_alSet_self]

/-- Witness for C9: the empty store has no issues and no projects; a
one-project store toggles from active to inactive. -/
theorem C9_not_found_witness :
    update_issue_status [] "u1".toList "i1".toList "resolved".toList none
      "t1".toList = ([], false) ∧
    add_related_message [] "u1".toList "i1".toList ⟨none, none, none, none, none⟩
      "t1".toList = ([], false) ∧
    toggle_project_status [] "u1".toList "p1".toList = ([], none) ∧
    (toggle_project_status
      [("u1".toList,
        ⟨some [("p1".toList, ⟨["general".toList], [], "t0".toList, true⟩)],
         none⟩)] "u1".toList "p1".toList).2 = some false := by
  have h1 := (C9_not_found [] "u1".toList "i1".toList "resolved".toList none
    "t1".toList ⟨none, none, none, none, none⟩ "p1".toList).1 rfl
  have h2 := (C9_not_found [] "u1".toList "i1".toList "resolved".toList none
    "t1".toList ⟨none, none, none, none, none⟩ "p1".toList).2.1 rfl
  have h3 := ((C9_not_found
    [("u1".toList,
      ⟨some [("p1".toList, ⟨["general".toList], [], "t0".toList, true⟩)],
       none⟩)] "u1".toList "i1".toList "resolved".toList none
    "t1".toList ⟨none, none, none, none, none⟩ "p1".toList).2.2
    ⟨["general".toList], [], "t0".toList, true⟩ rfl).1
  exact ⟨h1.1, h1.2, h2, h3⟩

/-- The spec's `Status` vocabulary. -/
def statusVocab : List Str :=
  ["open".toList, "investigating".toList, "resolved".toList, "closed".toList]

/-- The spec's `Priority` vocabulary. -/
def priorityVocab : List Str :=
  ["low".toList, "medium".toList, "high".toList, "critical".toList]

/-- The status-counter aggregate of a statistics record. -/
def sSum (st : Stats) : Nat := st.open_ + st.investigating + st.resolved + st.closed

/-- The `by_priority` aggregate of a statistics record. -/
def pSum (st : Stats) : Nat := st.low + st.medium + st.high + st.critical

lemma bumpStatus_open (st : Stats) :
    bumpStatus st "open".toList = { st with open_ := st.open_ + 1 } := by
  rw [bumpStatus, if_neg (by decide), if_pos rfl]

lemma bumpStatus_investigating (st : Stats) :
    bumpStatus st "investigating".toList
      = { st with investigating := st.investigating + 1 } := by
  rw [bumpStatus, if_neg (by decide), if_neg (by decide), if_pos rfl]

lemma bumpStatus_resolved (st : Stats) :
    bumpStatus st "resolved".toList = { st with resolved := st.resolved + 1 } := by
  rw [bumpStatus, if_neg (by decide), if_neg (by decide), if_neg (by decide),
    if_pos rfl]

lemma bumpStatus_closed (st : Stats) :
    bumpStatus st "closed".toList = { st with closed := st.closed + 1 } := by
  rw [bumpStatus, if_neg (by decide), if_neg (by decide), if_neg (by decide),
    if_neg (by decide), if_pos rfl]

lemma bumpPriority_low (st : Stats) :
    bumpPriority st "low".toList = { st with low := st.low + 1 } := by
  rw [bumpPriority, if_pos rfl]

lemma bumpPriority_medium (st : Stats) :
    bumpPriority st "medium".toList = { st with medium := st.medium + 1 } := by
  rw [bumpPriority, if_neg (by decide), if_pos rfl]

lemma bumpPriority_high (st : Stats) :
    bumpPriority st "high".toList = { st with high := st.high + 1 } := by
  rw [bumpPriority, if_neg (by decide), if_neg (by decide), if_pos rfl]

lemma bumpPriority_critical (st : Stats) :
    bumpPriority st "critical".toList = { st with critical := st.critical + 1 } := by
  rw [bumpPriority, if_neg (by decide), if_neg (by decide), if_neg (by decide),
    if_pos rfl]

lemma statStep_spec (recent : Issue → Bool) (st : Stats) (p : Str × Issue)
    (hs : p.2.status ∈ statusVocab) (hp : p.2.priority ∈ priorityVocab) :
    (statStep recent st p).total = st.total ∧
    sSum (statStep recent st p) = sSum st + 1 ∧
    pSum (statStep recent st p) = pSum st + 1 := by
  simp only [statusVocab, List.mem_cons, List.not_mem_nil, or_false] at hs
  simp only [priorityVocab, List.mem_cons, List.not_mem_nil, or_false] at hp
  rcases hs with hs | hs | hs | hs <;> rcases hp with hp | hp | hp | hp <;>
    simp only [statStep, hs, hp, bumpStatus_open, bumpStatus_investigating,
      bumpStatus_resolved, bumpStatus_closed, bumpPriority_low,
      bumpPriority_medium, bumpPriority_high, bumpPriority_critical] <;>
    split <;> simp [sSum, pSum] <;> omega

lemma statFold_spec (recent : Issue → Bool) (l : List (Str × Issue)) :
    ∀ init : Stats,
      (∀ p ∈ l, p.2.status ∈ statusVocab ∧ p.2.priority ∈ priorityVocab) →
      (l.foldl (statStep recent) init).total = init.total ∧
      sSum (l.foldl (statStep recent) init) = sSum init + l.length ∧
      pSum (l.foldl (statStep recent) init) = pSum init + l.length := by
  induction l with
  | nil => intro init _; simp
  | cons p t ih =>
    intro init h
    obtain ⟨hs, hp⟩ := h p (List.mem_cons_self p t)
    have hstep := statStep_spec recent init p hs hp
    have hrest := ih (statStep recent init p)
      (fun q hq => h q (List.mem_cons_of_mem p hq))
    simp only [List.foldl_cons, List.length_cons]
    refine ⟨?_, ?_, ?_⟩ <;> omega

/-- C7: whenever every stored issue carries a `Status` and a `Priority`
from the spec's vocabularies, the statistics are consistent:
`sum(by_priority.values()) == total` and
`open + investigating + resolved + closed == total`, with `total` the
number of the user's issues — for any wall-clock recent-activity
predicate. -/
theorem C7_statistics_consistency (s : Settings) (user_id : Str)
    (recent : Issue → Bool)
    (h : ∀ p ∈ get_user_issues s user_id none,
      p.2.status ∈ statusVocab ∧ p.2.priority ∈ priorityVocab) :
    pSum (get_issue_statistics s user_id recent)
      = (get_issue_statistics s user_id recent).total ∧
    sSum (get_issue_statistics s user_id recent)
      = (get_issue_statistics s user_id recent).total ∧
    (get_issue_statistics s user_id recent).total
      = (get_user_issues s user_id none).length := by
  have key := statFold_spec recent (get_user_issues s user_id none)
    ⟨(get_user_issues s user_id none).length, 0, 0, 0, 0, 0, 0, 0, 0, 0⟩ h
  simp only [get_issue_statistics]
  simp only [sSum, pSum] at key ⊢
  omega

/-- Witness for C7 on a two-issue store. -/
def c7issue1 : Issue :=
  ⟨"id1".toList, "t".toList, [], "o".toList, "c".toList, "r".toList,
   "1".toList, "1".toList, "open".toList, "medium".toList, [], [],
   [⟨"open".toList, "t0".toList, "u1".toList, none⟩], "t0".toList, "t0".toList⟩

def c7issue2 : Issue :=
  { c7issue1 with
    id := "id2".toList
    status := "resolved".toList
    priority := "critical".toList }

def c7store : Settings :=
  [("u1".toList, ⟨none, some [("id1".toList, c7issue1), ("id2".toList, c7issue2)]⟩)]

theorem C7_statistics_consistency_witness :
    (∀ p ∈ get_user_issues c7store "u1".toList none,
      p.2.status ∈ statusVocab ∧ p.2.priority ∈ priorityVocab) ∧
    pSum (get_issue_statistics c7store "u1".toList (fun _ => false))
      = (get_issue_statistics c7store "u1".toList (fun _ => false)).total ∧
    sSum (get_issue_statistics c7store "u1".toList (fun _ => false))
      = (get_issue_statistics c7store "u1".toList (fun _ => false)).total :=
  ⟨by decide,
    (C7_statistics_consistency c7store "u1".toList (fun _ => false) (by decide)).1,
    (C7_statistics_consistency c7store "u1".toList (fun _ => false) (by decide)).2.1⟩

/-- C8: `search_issues` returns a permutation of exactly the user's issues
whose lower-cased `title + " " + description + " " + original_text`
contains the lower-cased query; the result is ordered by `updated_at`
descending, and any two matching issues with equal `updated_at` keep the
insertion order of the underlying mapping (Python's sort is stable, and so
is `List.mergeSort`). -/
theorem C8_search (s : Settings) (user_id query : Str) :
    (search_issues s user_id query).Perm
      (((get_user_issues s user_id none).map Prod.snd).filter
        (fun issue => containsSub (searchableText issue) (toLowerStr query))) ∧
    (search_issues s user_id query).Pairwise
      (fun a b => b.updated_at ≤ a.updated_at) ∧
    (∀ a b : Issue,
      [a, b].Sublist
        (((get_user_issues s user_id none).map Prod.snd).filter
          (fun issue => containsSub (searchableText issue) (toLowerStr query))) →
      a.updated_at = b.updated_at →
      [a, b].Sublist (search_issues s user_id query)) := by
  have htrans : ∀ x y z : Issue,
      (fun a b : Issue => decide (b.updated_at ≤ a.updated_at)) x y →
      (fun a b : Issue => decide (b.updated_at ≤ a.updated_at)) y z →
      (fun a b : Issue => decide (b.updated_at ≤ a.updated_at)) x z := by
    intro x y z h1 h2
    exact decide_eq_true (le_trans (of_decide_eq_true h2) (of_decide_eq_true h1))
  have htotal : ∀ x y : Issue,
      ((fun a b : Issue => decide (b.updated_at ≤ a.updated_at)) x y ||
       (fun a b : Issue => decide (b.updated_at ≤ a.updated_at)) y x) = true := by
    intro x y
    rcases le_total y.updated_at x.updated_at with h | h <;> simp [h]
  refine ⟨?_, ?_, ?_⟩
  · simp only [search_issues]
    exact List.mergeSort_perm _ _
  · simp only [search_issues]
    exact (List.sorted_mergeSort htrans htotal _).imp fun h => of_decide_eq_true h
  · intro a b hsub heq
    simp only [search_issues]
    exact List.pair_sublist_mergeSort htrans htotal
      (decide_eq_true (le_of_eq heq.symm)) hsub

/-- Witness data for C8: two issues with identical `updated_at`, both
matching the query `"PCB"`. -/
def c8a : Issue :=
  ⟨"a1".toList, "PCB heat".toList, [], "orig".toList, "c".toList, "r".toList,
   "1".toList, "1".toList, "open".toList, "medium".toList, [], [], [],
   "t0".toList, "t5".toList⟩

def c8b : Issue :=
  { c8a with
    id := "a2".toList
    title := "pcb again".toList }

def c8store : Settings :=
  [("u1".toList, ⟨none, some [("a1".toList, c8a), ("a2".toList, c8b)]⟩)]

theorem C8_search_witness :
    [c8a, c8b].Sublist
      (((get_user_issues c8store "u1".toList none).map Prod.snd).filter
        (fun issue => containsSub (searchableText issue)
          (toLowerStr "PCB".toList))) ∧
    [c8a, c8b].Sublist (search_issues c8store "u1".toList "PCB".toList) := by
  have he : (((get_user_issues c8store "u1".toList none).map Prod.snd).filter
      (fun issue => containsSub (searchableText issue)
        (toLowerStr "PCB".toList))) = [c8a, c8b] := by rfl
  have hsub : [c8a, c8b].Sublist
      (((get_user_issues c8store "u1".toList none).map Prod.snd).filter
        (fun issue => containsSub (searchableText issue)
          (toLowerStr "PCB".toList))) := by
    rw [he]
  exact ⟨hsub, (C8_search c8store "u1".toList "PCB".toList).2.2 c8a c8b hsub rfl⟩

/-- A sequence of `update_issue_status` calls on one issue: each element is
`(new_status, updated_by, now)`.  Returns the final store and the number of
calls that returned `True`. -/
def applyUpdates : Settings → Str → Str → List (Str × Option Str × Str) →
    Settings × Nat
  | s, _, _, [] => (s, 0)
  | s, uid, iid, u :: rest =>
    let r := update_issue_status s uid iid u.1 u.2.1 u.2.2
    let r2 := applyUpdates r.1 uid iid rest
    (r2.1, (if r.2 then 1 else 0) + r2.2)

/-- The history entries chain: each entry's `previous_status` is the
`status` of the entry before it. -/
def historyChained (h : List HistEntry) : Prop :=
  List.Chain' (fun a b => b.previous_status = some a.status) h

lemma update_step (s : Settings) (uid iid ns : Str) (ub : Option Str)
    (now : Str) (i : Issue) (hi : get_issue s uid iid = some i) :
    (update_issue_status s uid iid ns ub now).2 = true ∧
    get_issue (update_issue_status s uid iid ns ub now).1 uid iid =
      some { i with
        status := ns
        updated_at := now
        status_history := i.status_history ++
          [⟨ns, now, ub.getD uid, some i.status⟩] } := by
  rw [get_issue, get_user_issues] at hi
  cases hu : alGet s uid with
  | none => rw [hu] at hi; simp [alGet] at hi
  | some ud =>
    rw [hu] at hi
    cases hud : ud.issues with
    | none => simp [Option.some_bind, hud, alGet] at hi
    | some issues =>
      simp only [Option.some_bind, hud, Option.getD_some] at hi
      constructor
      · simp [update_issue_status, hu, hud, hi]
      · simp only [update_issue_status, hu, hud, hi]
        rw [get_issue, get_user_issues, alGet_alSet_self]
        simp [alGet_alSet_self]

lemma create_issue_spec (s : Settings) (uid : Str) (d : IssueData) (now : Str)
    (hd : d.status = none) :
    ∃ i, get_issue (create_issue s uid d now).1 uid
        (create_issue s uid d now).2 = some i ∧
      i.status = "open".toList ∧
      i.status_history = [⟨"open".toList, now, uid, none⟩] := by
  refine ⟨{ id := generate_issue_id (d.original_text.getD [])
              (d.channel.getD []) (d.timestamp.getD [])
            title := d.title.getD []
            description := d.description.getD []
            original_text := d.original_text.getD []
            channel := d.channel.getD []
            reporter := d.reporter.getD []
            timestamp := d.timestamp.getD []
            message_ts := d.message_ts.getD []
            status := "open".toList
            priority := d.priority.getD "medium".toList
            tags := d.tags.getD []
            related_messages := []
            status_history := [⟨"open".toList, now, uid, none⟩]
            created_at := now
            updated_at := now }, ?_, rfl, rfl⟩
  simp only [create_issue, get_issue, get_user_issues]
  rw [alGet_alSet_self]
  simp only [Option.some_bind, Option.getD_some]
  rw [alGet_alSet_self]
  simp [hd]

lemma applyUpdates_spec (upds : List (Str × Option Str × Str)) :
    ∀ (s : Settings) (uid iid : Str) (i : Issue),
      get_issue s uid iid = some i →
      i.status_history.getLast?.map HistEntry.status = some i.status →
      historyChained i.status_history →
      ∃ j, get_issue (applyUpdates s uid iid upds).1 uid iid = some j ∧
        (applyUpdates s uid iid upds).2 = upds.length ∧
        j.status_history.length = i.status_history.length + upds.length ∧
        j.status_history.getLast?.map HistEntry.status = some j.status ∧
        historyChained j.status_history := by
  induction upds with
  | nil =>
    intro s uid iid i hi hlast hchain
    exact ⟨i, hi, rfl, by simp, hlast, hchain⟩
  | cons u rest ih =>
    intro s uid iid i hi hlast hchain
    obtain ⟨hsucc, hget⟩ := update_step s uid iid u.1 u.2.1 u.2.2 i hi
    have hlast2 :
        (i.status_history ++ [⟨u.1, u.2.2, (u.2.1).getD uid, some i.status⟩]
          : List HistEntry).getLast?.map HistEntry.status = some u.1 := by
      rw [List.getLast?_concat]
      rfl
    have hchain2 : historyChained
        (i.status_history ++ [⟨u.1, u.2.2, (u.2.1).getD uid, some i.status⟩]) := by
      rw [historyChained, List.chain'_append]
      refine ⟨hchain, List.chain'_singleton _, ?_⟩
      intro x hx y hy
      simp only [List.head?_cons, Option.mem_def, Option.some.injEq] at hy
      subst hy
      have hxs : x.status = i.status := by
        rw [Option.mem_def] at hx
        rw [hx] at hlast
        simpa using hlast
      simp [hxs]
    obtain ⟨j, hj1, hj2, hj3, hj4, hj5⟩ :=
      ih (update_issue_status s uid iid u.1 u.2.1 u.2.2).1 uid iid _ hget
        hlast2 hchain2
    refine ⟨j, ?_, ?_, ?_, hj4, hj5⟩
    · simpa only [applyUpdates] using hj1
    · simp only [applyUpdates, hsucc, if_pos, hj2, List.length_cons]
      omega
    · simp only [List.length_append, List.length_cons, List.length_nil] at hj3
      simp only [List.length_cons]
      omega

/-- C1: `create_issue` on a detector candidate stores an issue with status
`open` whose history is exactly one `open` entry by the creating user;
every successful `update_issue_status` appends exactly one entry whose
`previous_status` is the status immediately before the call; and after a
sequence of calls on that issue (all of which succeed, so `N` successful
calls) the history has `N + 1` entries and the recorded transitions chain
in call order. -/
theorem C1_lifecycle_history :
    ∀ (s : Settings) (user_id : Str) (c : Candidate) (now : Str),
      (∃ i, get_issue (create_issue s user_id (candidateData c) now).1 user_id
          (create_issue s user_id (candidateData c) now).2 = some i ∧
        i.status = "open".toList ∧
        i.status_history = [⟨"open".toList, now, user_id, none⟩]) ∧
      (∀ (s2 : Settings) (iid ns : Str) (ub : Option Str) (now2 : Str)
          (i : Issue),
        get_issue s2 user_id iid = some i →
        (update_issue_status s2 user_id iid ns ub now2).2 = true ∧
        get_issue (update_issue_status s2 user_id iid ns ub now2).1 user_id iid
          = some { i with
              status := ns
              updated_at := now2
              status_history := i.status_history ++
                [⟨ns, now2, ub.getD user_id, some i.status⟩] }) ∧
      (∀ upds : List (Str × Option Str × Str),
        ∃ j, get_issue
            (applyUpdates (create_issue s user_id (candidateData c) now).1
              user_id (create_issue s user_id (candidateData c) now).2 upds).1
            user_id (create_issue s user_id (candidateData c) now).2 = some j ∧
          (applyUpdates (create_issue s user_id (candidateData c) now).1
            user_id (create_issue s user_id (candidateData c) now).2 upds).2
            = upds.length ∧
          j.status_history.length =
            (applyUpdates (create_issue s user_id (candidateData c) now).1
              user_id (create_issue s user_id (candidateData c) now).2 upds).2
              + 1 ∧
          historyChained j.status_history) := by
  intro s user_id c now
  obtain ⟨i0, hget0, hst0, hhist0⟩ :=
    create_issue_spec s user_id (candidateData c) now rfl
  refine ⟨⟨i0, hget0, hst0, hhist0⟩, ?_, ?_⟩
  · intro s2 iid ns ub now2 i hi
    exact update_step s2 user_id iid ns ub now2 i hi
  · intro upds
    have hlast0 : i0.status_history.getLast?.map HistEntry.status
        = some i0.status := by
      rw [hhist0, hst0]
      rfl
    have hchain0 : historyChained i0.status_history := by
      rw [hhist0]
      exact List.chain'_singleton _
    obtain ⟨j, hj1, hj2, hj3, _, hj5⟩ :=
      applyUpdates_spec upds _ user_id _ i0 hget0 hlast0 hchain0
    refine ⟨j, hj1, hj2, ?_, hj5⟩
    rw [hj2, hj3, hhist0]
    simp only [List.length_singleton]
    omega

/-- Witness data for C1: a concrete candidate, and a concrete one-issue
store for the single-update part. -/
def c1cand : Candidate :=
  ⟨"PCB bug".toList, "The PCB has a bug".toList, "hardware".toList,
   "u9".toList, "1000".toList, "1000".toList, ["bug".toList, "hardware".toList],
   "medium".toList, ["bug".toList, "hardware".toList]⟩

def c1issue : Issue :=
  ⟨"i1".toList, "t".toList, [], "o".toList, "c".toList, "r".toList,
   "1".toList, "1".toList, "open".toList, "medium".toList, [], [],
   [⟨"open".toList, "t0".toList, "u1".toList, none⟩], "t0".toList, "t0".toList⟩

def c1store : Settings :=
  [("u1".toList, ⟨none, some [("i1".toList, c1issue)]⟩)]

theorem C1_lifecycle_history_witness :
    ((update_issue_status c1store "u1".toList "i1".toList "resolved".toList
        none "t1".toList).2 = true) ∧
    (∃ j, get_issue
        (applyUpdates (create_issue [] "u1".toList (candidateData c1cand)
            "t0".toList).1
          "u1".toList (create_issue [] "u1".toList (candidateData c1cand)
            "t0".toList).2
          [("investigating".toList, none, "t1".toList),
           ("resolved".toList, some "u2".toList, "t2".toList)]).1
        "u1".toList (create_issue [] "u1".toList (candidateData c1cand)
          "t0".toList).2 = some j ∧
      (applyUpdates (create_issue [] "u1".toList (candidateData c1cand)
          "t0".toList).1
        "u1".toList (create_issue [] "u1".toList (candidateData c1cand)
          "t0".toList).2
        [("investigating".toList, none, "t1".toList),
         ("resolved".toList, some "u2".toList, "t2".toList)]).2 = 2 ∧
      j.status_history.length = 3 ∧
      historyChained j.status_history) := by
  constructor
  · exact ((C1_lifecycle_history c1store "u1".toList c1cand "t0".toList).2.1
      c1store "i1".toList "resolved".toList none "t1".toList c1issue rfl).1
  · obtain ⟨j, hj1, hj2, hj3, hj4⟩ :=
      (C1_lifecycle_history [] "u1".toList c1cand "t0".toList).2.2
        [("investigating".toList, none, "t1".toList),
         ("resolved".toList, some "u2".toList, "t2".toList)]
    refine ⟨j, hj1, hj2, ?_, hj4⟩
    rw [hj3, hj2]
    rfl

/-- Witness for C4 at a concrete text. -/
theorem C4_classifier_union_witness :
    (∃ pats, ("bug".toList, pats) ∈ issue_patterns ∧
      ∃ k ∈ pats, containsSub (toLowerStr "a bug".toList) k = true) ∧
    "bug".toList ∈ detect_issue_keywords "a bug".toList :=
  ⟨⟨["bug".toList, "bugs".toList, "buggy".toList, "defect".toList,
      "error".toList, "broken".toList], by decide, by decide⟩,
    (C4_classifier_union.1 "a bug".toList "bug".toList).mpr
      ⟨["bug".toList, "bugs".toList, "buggy".toList, "defect".toList,
        "error".toList, "broken".toList], by decide, by decide⟩⟩

/-- Witness for C6 at a one-message batch. -/
theorem C6_detector_witness :
    detect_and_track_issues
        [⟨some "a bug".toList, some "u2".toList, some "c2".toList,
          some "9".toList, some "9.5".toList⟩] =
      [specCandidate
        ⟨some "a bug".toList, some "u2".toList, some "c2".toList,
          some "9".toList, some "9.5".toList⟩] :=
  (C6_detector [⟨some "a bug".toList, some "u2".toList, some "c2".toList,
    some "9".toList, some "9.5".toList⟩]).trans (by rfl)
